import Mathlib

/-!
Shallow embedding of `src/mortgage_model.py` (class `MortgageSim`).

Python floats are modelled as exact rationals (ℚ); Python exceptions
(float division by zero, attribute access before assignment) are modelled
by `Option`-valued operations returning `none`.  Python lists are Lean
lists, `list.append(x)` is `++ [x]`, and `list[-12:]` is `lastN 12`.
The sentinel `np.inf` used as the last bracket threshold is modelled as
`none` in `Option ℚ` (a finite income never satisfies `income >= inf`,
and `inf` scaled by a positive factor stays `inf`).
-/

namespace MortgageSim

/-- The constructor arguments of the `MortgageSim` dataclass
(`home_price` .. `charitable_contribution_percent`).  The two year counts
are naturals; all money amounts and rates are rationals. -/
structure Params where
  home_price : ℚ
  down_payment : ℚ
  sim_years : ℕ
  mortgage_years : ℕ
  initial_income : ℚ
  initial_living_expenses : ℚ
  initial_standard_deduction : ℚ
  income_increase_rate : ℚ
  inflation_rate : ℚ
  interest_rate : ℚ
  investment_return_rate : ℚ
  charitable_contribution_percent : ℚ
deriving DecidableEq, Repr

/-- One entry of `self.csv_rows` (the dict built in `step_year`). -/
structure CsvRow where
  timeYears : ℕ
  loanBalance : ℚ
  income : ℚ
  annualTotalMortgagePayments : ℚ
  livingExpenses : ℚ
  stateTax : ℚ
  standardDeduction : ℚ
  charitableDeduction : ℚ
  saltDeduction : ℚ
  mortgageInterestDeduction : ℚ
  preferredDeduction : ℚ
  federalTax : ℚ
  investmentAmount : ℚ
  investmentBalance : ℚ
deriving DecidableEq, Repr

/-- All-zero placeholder row (used only as a `headD`, `getLastD` default). -/
def zeroRow : CsvRow :=
  ⟨0, 0, 0, 0, 0, 0, 0, 0, 0, 0, 0, 0, 0, 0⟩

/-- The full mutable state of a `MortgageSim` object: the dataclass fields
(which the driver may mutate between runs) plus everything set in
`__post_init__`.  `monthly_payment` is `none` until `run` first assigns it
(reading it before that would raise `AttributeError` in Python). -/
structure SimState where
  home_price : ℚ
  down_payment : ℚ
  sim_years : ℕ
  mortgage_years : ℕ
  initial_income : ℚ
  initial_living_expenses : ℚ
  initial_standard_deduction : ℚ
  income_increase_rate : ℚ
  inflation_rate : ℚ
  interest_rate : ℚ
  investment_return_rate : ℚ
  charitable_contribution_percent : ℚ
  time_years : ℕ
  interest_payments : List ℚ
  principal_payments : List ℚ
  monthly_payments : List ℚ
  loan_amounts : List ℚ
  investment_balances : List ℚ
  standard_deductions : List ℚ
  charitable_deductions : List ℚ
  salt_deductions : List ℚ
  mortgage_interest_deductions : List ℚ
  itemized_deductions : List ℚ
  deductions : List ℚ
  csv_rows : List CsvRow
  loan_amount : ℚ
  init_loan_amount : ℚ
  investment_balance : ℚ
  monthly_payment : Option ℚ
deriving DecidableEq, Repr

/-- The scenario-parameter portion of a state (the 12 dataclass fields). -/
def scenarioParams (s : SimState) : Params :=
  ⟨s.home_price, s.down_payment, s.sim_years, s.mortgage_years,
   s.initial_income, s.initial_living_expenses, s.initial_standard_deduction,
   s.income_increase_rate, s.inflation_rate, s.interest_rate,
   s.investment_return_rate, s.charitable_contribution_percent⟩

/-- Construction of a `MortgageSim` (dataclass init followed by
`__post_init__`, lines 22-47).  Note there is no validation whatsoever. -/
def mkSim (p : Params) : SimState where
  home_price := p.home_price
  down_payment := p.down_payment
  sim_years := p.sim_years
  mortgage_years := p.mortgage_years
  initial_income := p.initial_income
  initial_living_expenses := p.initial_living_expenses
  initial_standard_deduction := p.initial_standard_deduction
  income_increase_rate := p.income_increase_rate
  inflation_rate := p.inflation_rate
  interest_rate := p.interest_rate
  investment_return_rate := p.investment_return_rate
  charitable_contribution_percent := p.charitable_contribution_percent
  time_years := 0
  interest_payments := []
  principal_payments := []
  monthly_payments := []
  loan_amounts := []
  investment_balances := []
  standard_deductions := []
  charitable_deductions := []
  salt_deductions := []
  mortgage_interest_deductions := []
  itemized_deductions := []
  deductions := []
  csv_rows := []
  loan_amount := p.home_price - p.down_payment
  init_loan_amount := p.home_price - p.down_payment
  investment_balance := 0
  monthly_payment := none

/-- The `restart` method (lines 49-64): clears time, all history lists and
the investment balance, and restores `loan_amount` from
`_INIT_LOAN_AMOUNT`.  It does NOT touch `monthly_payment`. -/
def restart (s : SimState) : SimState :=
  { s with
    time_years := 0
    interest_payments := []
    principal_payments := []
    monthly_payments := []
    loan_amounts := []
    investment_balances := []
    standard_deductions := []
    charitable_deductions := []
    salt_deductions := []
    mortgage_interest_deductions := []
    itemized_deductions := []
    deductions := []
    csv_rows := []
    investment_balance := 0
    loan_amount := s.init_loan_amount }

/-- Method `get_income` (line 66). -/
def get_income (s : SimState) (year : ℕ) : ℚ :=
  s.initial_income * (1 + s.income_increase_rate) ^ year

/-- Method `get_living_expenses` (line 69). -/
def get_living_expenses (s : SimState) (year : ℕ) : ℚ :=
  s.initial_living_expenses * (1 + s.inflation_rate) ^ year

/-- Method `get_standard_deduction` (line 72). -/
def get_standard_deduction (s : SimState) (year : ℕ) : ℚ :=
  s.initial_standard_deduction * (1 + s.inflation_rate) ^ year

/-- Method `get_state_tax` (line 91): flat 4.95% rate on income minus a
fixed exemption total of 2*2425. -/
def get_state_tax (income : ℚ) : ℚ :=
  (income - 2425 * 2) * (495 / 10000)

/-- Method `get_salt_deduction` (line 76): min of the inflation-scaled
10000 cap and the state tax. -/
def get_salt_deduction (s : SimState) (income : ℚ) (year : ℕ) : ℚ :=
  min (10000 * (1 + s.inflation_rate) ^ year) (get_state_tax income)

/-- Method `get_mortgage_interest_deduction` (line 82):
`min(750e3, balance)/balance * annual_interest`.  In Python the division
raises `ZeroDivisionError` when `mortgage_balance` is 0, modelled here as
`none`. -/
def get_mortgage_interest_deduction (mortgage_balance annual_mortgage_interest : ℚ) :
    Option ℚ :=
  if mortgage_balance = 0 then none
  else some (min 750000 mortgage_balance / mortgage_balance * annual_mortgage_interest)

/-- The literal `initial_tax_brackets` list from `__post_init__`
(lines 36-44); `none` stands for `np.inf`. -/
def initial_tax_brackets : List (Option ℚ × ℚ) :=
  [(some 22000, 1 / 10), (some 89450, 12 / 100), (some 190750, 22 / 100),
   (some 364200, 24 / 100), (some 462500, 32 / 100), (some 693750, 35 / 100),
   (none, 37 / 100)]

/-- Method `get_current_tax_brackets` (line 85): every income level is
scaled by `(1+inflation_rate)^year`; `np.inf` scaled by the (positive)
factor stays `np.inf`, i.e. `none` stays `none`. -/
def get_current_tax_brackets (s : SimState) (year : ℕ) : List (Option ℚ × ℚ) :=
  initial_tax_brackets.map
    (fun b => (b.1.map (fun level => level * (1 + s.inflation_rate) ^ year), b.2))

/-- The bracket-walk loop of `get_federal_tax` (lines 98-108), with the
accumulator `total_tax` and `prev_income_level` threaded explicitly; the
`none` (infinite) threshold always takes the `else`/`break` branch since a
finite income is never `>= np.inf`. -/
def walkBrackets (income : ℚ) : List (Option ℚ × ℚ) → ℚ → ℚ → ℚ
  | [], _, total => total
  | (some level, rate) :: rest, prev, total =>
    if income ≥ level then walkBrackets income rest level (total + (level - prev) * rate)
    else total + (income - prev) * rate
  | (none, rate) :: _, prev, total => total + (income - prev) * rate

/-- Method `get_federal_tax` (line 96). -/
def get_federal_tax (s : SimState) (income : ℚ) (year : ℕ) : ℚ :=
  walkBrackets income (get_current_tax_brackets s year) 0 0

/-- Python `l[-12:]`: the last `n` elements of a list (all of it when it is
shorter). -/
def lastN (n : ℕ) (l : List ℚ) : List ℚ :=
  l.drop (l.length - n)

/-- Method `step_month` (lines 110-124).  While inside the mortgage term it
reads `self.monthly_payment` (set only by `run`; `none` models the Python
`AttributeError` when it was never assigned). -/
def stepMonth (s : SimState) : Option SimState :=
  if s.time_years < s.mortgage_years then
    match s.monthly_payment with
    | none => none
    | some m =>
      let interest_payment := s.interest_rate / 12 * s.loan_amount
      let principal_payment := m - interest_payment
      let newLoan := s.loan_amount - principal_payment
      some { s with
        loan_amount := newLoan
        interest_payments := s.interest_payments ++ [interest_payment]
        principal_payments := s.principal_payments ++ [principal_payment]
        monthly_payments := s.monthly_payments ++ [m]
        loan_amounts := s.loan_amounts ++ [newLoan] }
  else
    some { s with
      interest_payments := s.interest_payments ++ [0]
      principal_payments := s.principal_payments ++ [0]
      monthly_payments := s.monthly_payments ++ [0]
      loan_amounts := s.loan_amounts ++ [s.loan_amount] }

/-- Iterated `step_month` (the `for _ in range(12)` loop uses
`iterMonths 12`). -/
def iterMonths : ℕ → SimState → Option SimState
  | 0, s => some s
  | n + 1, s => (stepMonth s).bind (iterMonths n)

/-- Method `step_year` (lines 126-176): 12 monthly steps, then the tax and
deduction block, the investment update, the history appends and the year
increment.  `none` propagates a `ZeroDivisionError` from the
mortgage-interest deduction or a missing `monthly_payment`. -/
def stepYear (s : SimState) : Option SimState :=
  match iterMonths 12 s with
  | none => none
  | some t =>
    let annual_mortgage_interest := (lastN 12 t.interest_payments).sum
    let annual_mortgage_payments := (lastN 12 t.monthly_payments).sum
    let annual_income := get_income t t.time_years
    let standard_deduction := get_standard_deduction t t.time_years
    let charitable_deduction := annual_income * t.charitable_contribution_percent
    let salt_deduction := get_salt_deduction t annual_income t.time_years
    match get_mortgage_interest_deduction t.loan_amount annual_mortgage_interest with
    | none => none
    | some mortgage_interest_deduction =>
      let itemized_deduction :=
        charitable_deduction + salt_deduction + mortgage_interest_deduction
      let deduction := max standard_deduction itemized_deduction
      let state_tax := get_state_tax annual_income
      let federal_tax := get_federal_tax t (annual_income - deduction) t.time_years
      let living_expenses := get_living_expenses t t.time_years
      let investment_amount := annual_income - living_expenses - state_tax -
        federal_tax - annual_mortgage_payments
      let new_balance :=
        t.investment_balance * (1 + t.investment_return_rate) + investment_amount
      some { t with
        investment_balance := new_balance
        standard_deductions := t.standard_deductions ++ [standard_deduction]
        charitable_deductions := t.charitable_deductions ++ [charitable_deduction]
        salt_deductions := t.salt_deductions ++ [salt_deduction]
        mortgage_interest_deductions :=
          t.mortgage_interest_deductions ++ [mortgage_interest_deduction]
        itemized_deductions := t.itemized_deductions ++ [itemized_deduction]
        deductions := t.deductions ++ [deduction]
        investment_balances := t.investment_balances ++ [new_balance]
        csv_rows := t.csv_rows ++
          [⟨t.time_years, t.loan_amount, annual_income, annual_mortgage_payments,
            living_expenses, state_tax, standard_deduction, charitable_deduction,
            salt_deduction, mortgage_interest_deduction, deduction, federal_tax,
            investment_amount, new_balance⟩]
        time_years := t.time_years + 1 }

/-- Iterated `step_year` (the `for _ in range(self.sim_years)` loop of
`run` uses `stepYears s.sim_years`). -/
def stepYears : ℕ → SimState → Option SimState
  | 0, s => some s
  | n + 1, s => (stepYear s).bind (stepYears n)

/-- The annuity formula of `run` (lines 179-181), exactly as written:
`loan_amount * (r/12 * (1+r/12)^(12T)) / ((1+r/12)^(12T) - 1)`. -/
def annuity (s : SimState) : ℚ :=
  s.loan_amount * (s.interest_rate / 12 *
    (1 + s.interest_rate / 12) ^ (s.mortgage_years * 12)) /
    ((1 + s.interest_rate / 12) ^ (s.mortgage_years * 12) - 1)

/-- The first statement of `run`: assigning `self.monthly_payment`.  When
the denominator `(1+r/12)^(12T) - 1` is zero Python raises
`ZeroDivisionError` (e.g. for `interest_rate = 0`), modelled as `none`. -/
def setPayment (s : SimState) : Option SimState :=
  if (1 + s.interest_rate / 12) ^ (s.mortgage_years * 12) - 1 = 0 then none
  else some { s with monthly_payment := some (annuity s) }

/-- Method `run` (lines 178-205) without the CSV-file side effect: compute
the monthly payment, then execute `step_year` exactly `sim_years` times. -/
def run (s : SimState) : Option SimState :=
  (setPayment s).bind (fun t => stepYears t.sim_years t)

/-- The year increment performed at the end of `step_year` (line 175). -/
def tickYear (s : SimState) : SimState :=
  { s with time_years := s.time_years + 1 }

/-- The amortization portion of a run: each simulated year is 12 monthly
steps followed by the year increment (the tax/history block of `step_year`
does not touch the loan or the payment lists, see `stepYear_amort`). -/
def amortYears : ℕ → SimState → Option SimState
  | 0, s => some s
  | k + 1, s => (iterMonths 12 s).bind (fun t => amortYears k (tickYear t))

/-- Partial geometric sum `1 + q + q^2 + ... + q^(n-1)`, written with the
Horner grouping that matches the loan-balance recurrence. -/
def gsum (q : ℚ) : ℕ → ℚ
  | 0 => 0
  | n + 1 => 1 + q * gsum q n

theorem gsum_succ (q : ℚ) (n : ℕ) : gsum q (n + 1) = q ^ n + gsum q n := by
  induction n with
  | zero => simp [gsum]
  | succ n ih =>
    calc gsum q (n + 1 + 1) = 1 + q * gsum q (n + 1) := rfl
    _ = 1 + q * (q ^ n + gsum q n) := by rw [ih]
    _ = q ^ (n + 1) + (1 + q * gsum q n) := by ring
    _ = q ^ (n + 1) + gsum q (n + 1) := rfl

theorem gsum_add (q : ℚ) (a b : ℕ) :
    gsum q (a + b) = gsum q b + q ^ b * gsum q a := by
  induction a with
  | zero => simp [gsum]
  | succ a ih =>
    have h1 : a + 1 + b = a + b + 1 := by omega
    rw [h1, gsum_succ, ih, gsum_succ, pow_add]
    ring

theorem gsum_mul_sub_one (q : ℚ) (n : ℕ) : (q - 1) * gsum q n = q ^ n - 1 := by
  induction n with
  | zero => simp [gsum]
  | succ n ih =>
    have h : gsum q (n + 1) = 1 + q * gsum q n := rfl
    rw [h, pow_succ]
    linear_combination q * ih

/-- Two states with equal `scenarioParams` agree on all 12 dataclass
fields. -/
theorem scenarioParams_fields {s t : SimState}
    (h : scenarioParams t = scenarioParams s) :
    t.home_price = s.home_price ∧ t.down_payment = s.down_payment ∧
    t.sim_years = s.sim_years ∧ t.mortgage_years = s.mortgage_years ∧
    t.initial_income = s.initial_income ∧
    t.initial_living_expenses = s.initial_living_expenses ∧
    t.initial_standard_deduction = s.initial_standard_deduction ∧
    t.income_increase_rate = s.income_increase_rate ∧
    t.inflation_rate = s.inflation_rate ∧ t.interest_rate = s.interest_rate ∧
    t.investment_return_rate = s.investment_return_rate ∧
    t.charitable_contribution_percent = s.charitable_contribution_percent := by
  simpa [scenarioParams, Params.mk.injEq] using h

/-- Frame of one monthly step: the scenario parameters, the clock, the
stashed initial loan amount, the monthly payment, the investment state and
the yearly history are untouched, and the appended principal payment is
exactly the decrease of the loan balance. -/
theorem stepMonth_frame {s t : SimState} (h : stepMonth s = some t) :
    scenarioParams t = scenarioParams s ∧
    t.time_years = s.time_years ∧
    t.init_loan_amount = s.init_loan_amount ∧
    t.monthly_payment = s.monthly_payment ∧
    t.investment_balance = s.investment_balance ∧
    t.investment_balances = s.investment_balances ∧
    t.csv_rows = s.csv_rows ∧
    t.principal_payments.sum + t.loan_amount
      = s.principal_payments.sum + s.loan_amount := by
  unfold stepMonth at h
  by_cases hlt : s.time_years < s.mortgage_years
  · rw [if_pos hlt] at h
    cases hm : s.monthly_payment with
    | none => rw [hm] at h; cases h
    | some m =>
      rw [hm] at h
      simp only [Option.some.injEq] at h
      subst h
      refine ⟨rfl, rfl, rfl, rfl, rfl, rfl, rfl, ?_⟩
      simp only [List.sum_append, List.sum_cons, List.sum_nil]
      ring
  · rw [if_neg hlt] at h
    simp only [Option.some.injEq] at h
    subst h
    refine ⟨rfl, rfl, rfl, rfl, rfl, rfl, rfl, ?_⟩
    simp only [List.sum_append, List.sum_cons, List.sum_nil]
    ring

/-- `stepMonth_frame` lifted to `n` iterated monthly steps. -/
theorem iterMonths_frame {n : ℕ} {s t : SimState}
    (h : iterMonths n s = some t) :
    scenarioParams t = scenarioParams s ∧
    t.time_years = s.time_years ∧
    t.init_loan_amount = s.init_loan_amount ∧
    t.monthly_payment = s.monthly_payment ∧
    t.investment_balance = s.investment_balance ∧
    t.investment_balances = s.investment_balances ∧
    t.csv_rows = s.csv_rows ∧
    t.principal_payments.sum + t.loan_amount
      = s.principal_payments.sum + s.loan_amount := by
  induction n generalizing s with
  | zero =>
    obtain rfl : s = t := Option.some.inj h
    exact ⟨rfl, rfl, rfl, rfl, rfl, rfl, rfl, rfl⟩
  | succ n ih =>
    replace h : (stepMonth s).bind (iterMonths n) = some t := h
    cases hm : stepMonth s with
    | none => rw [hm] at h; cases h
    | some u =>
      rw [hm] at h
      replace h : iterMonths n u = some t := h
      obtain ⟨p1, p2, p3, p4, p5, p6, p7, p8⟩ := stepMonth_frame hm
      obtain ⟨q1, q2, q3, q4, q5, q6, q7, q8⟩ := ih h
      exact ⟨q1.trans p1, q2.trans p2, q3.trans p3, q4.trans p4, q5.trans p5,
        q6.trans p6, q7.trans p7, q8.trans p8⟩

/-- The row appended to `csv_rows` by the tail of `step_year` once the 12
monthly steps have produced `u` and the mortgage-interest deduction has
evaluated to `d`. -/
def yearRow (u : SimState) (d : ℚ) : CsvRow :=
  let annual_mortgage_payments := (lastN 12 u.monthly_payments).sum
  let annual_income := get_income u u.time_years
  let standard_deduction := get_standard_deduction u u.time_years
  let charitable_deduction := annual_income * u.charitable_contribution_percent
  let salt_deduction := get_salt_deduction u annual_income u.time_years
  let itemized_deduction := charitable_deduction + salt_deduction + d
  let deduction := max standard_deduction itemized_deduction
  let state_tax := get_state_tax annual_income
  let federal_tax := get_federal_tax u (annual_income - deduction) u.time_years
  let living_expenses := get_living_expenses u u.time_years
  let investment_amount := annual_income - living_expenses - state_tax -
    federal_tax - annual_mortgage_payments
  let new_balance :=
    u.investment_balance * (1 + u.investment_return_rate) + investment_amount
  ⟨u.time_years, u.loan_amount, annual_income, annual_mortgage_payments,
    living_expenses, state_tax, standard_deduction, charitable_deduction,
    salt_deduction, d, deduction, federal_tax, investment_amount, new_balance⟩

/-- The state produced by the tail of `step_year` (lines 130-175) once the
12 monthly steps have produced `u` and the mortgage-interest deduction has
evaluated to `d`; used to reason about `stepYear` by inversion. -/
def yearRecord (u : SimState) (d : ℚ) : SimState :=
  let annual_mortgage_payments := (lastN 12 u.monthly_payments).sum
  let annual_income := get_income u u.time_years
  let standard_deduction := get_standard_deduction u u.time_years
  let charitable_deduction := annual_income * u.charitable_contribution_percent
  let salt_deduction := get_salt_deduction u annual_income u.time_years
  let itemized_deduction := charitable_deduction + salt_deduction + d
  let deduction := max standard_deduction itemized_deduction
  let state_tax := get_state_tax annual_income
  let federal_tax := get_federal_tax u (annual_income - deduction) u.time_years
  let living_expenses := get_living_expenses u u.time_years
  let investment_amount := annual_income - living_expenses - state_tax -
    federal_tax - annual_mortgage_payments
  let new_balance :=
    u.investment_balance * (1 + u.investment_return_rate) + investment_amount
  { u with
    investment_balance := new_balance
    standard_deductions := u.standard_deductions ++ [standard_deduction]
    charitable_deductions := u.charitable_deductions ++ [charitable_deduction]
    salt_deductions := u.salt_deductions ++ [salt_deduction]
    mortgage_interest_deductions := u.mortgage_interest_deductions ++ [d]
    itemized_deductions := u.itemized_deductions ++ [itemized_deduction]
    deductions := u.deductions ++ [deduction]
    investment_balances := u.investment_balances ++ [new_balance]
    csv_rows := u.csv_rows ++
      [⟨u.time_years, u.loan_amount, annual_income, annual_mortgage_payments,
        living_expenses, state_tax, standard_deduction, charitable_deduction,
        salt_deduction, d, deduction, federal_tax, investment_amount,
        new_balance⟩]
    time_years := u.time_years + 1 }

theorem stepYear_eq {s u : SimState} {d : ℚ}
    (hu : iterMonths 12 s = some u)
    (hd : get_mortgage_interest_deduction u.loan_amount
      (lastN 12 u.interest_payments).sum = some d) :
    stepYear s = some (yearRecord u d) := by
  simp [stepYear, hu, hd, yearRecord]

theorem stepYear_none_of_months {s : SimState}
    (hu : iterMonths 12 s = none) : stepYear s = none := by
  simp [stepYear, hu]

theorem stepYear_none_of_deduction {s u : SimState}
    (hu : iterMonths 12 s = some u)
    (hd : get_mortgage_interest_deduction u.loan_amount
      (lastN 12 u.interest_payments).sum = none) :
    stepYear s = none := by
  simp [stepYear, hu, hd]

/-- Inversion for a successful `stepYear`. -/
theorem stepYear_inv {s t : SimState} (h : stepYear s = some t) :
    ∃ u d, iterMonths 12 s = some u ∧
      get_mortgage_interest_deduction u.loan_amount
        (lastN 12 u.interest_payments).sum = some d ∧
      t = yearRecord u d := by
  cases hu : iterMonths 12 s with
  | none => rw [stepYear_none_of_months hu] at h; cases h
  | some u =>
    cases hd : get_mortgage_interest_deduction u.loan_amount
        (lastN 12 u.interest_payments).sum with
    | none => rw [stepYear_none_of_deduction hu hd] at h; cases h
    | some d =>
      refine ⟨u, d, rfl, hd, ?_⟩
      have := (stepYear_eq hu hd).symm.trans h
      exact (Option.some.inj this).symm

theorem yearRecord_csv (u : SimState) (d : ℚ) :
    (yearRecord u d).csv_rows = u.csv_rows ++ [yearRow u d] := rfl

theorem yearRecord_balance (u : SimState) (d : ℚ) :
    (yearRecord u d).investment_balance
      = u.investment_balance * (1 + u.investment_return_rate)
        + (yearRow u d).investmentAmount := rfl

theorem yearRecord_balances (u : SimState) (d : ℚ) :
    (yearRecord u d).investment_balances
      = u.investment_balances ++ [(yearRecord u d).investment_balance] := rfl

/-- Frame of one yearly step: parameters, the stashed initial loan amount
and the monthly payment are untouched; the clock advances by one; exactly
one row is appended to `csv_rows` and one balance to
`investment_balances`; and the new investment balance compounds the old
one and adds the (possibly negative) surplus recorded in the row, with no
clamping. -/
theorem stepYear_frame {s t : SimState} (h : stepYear s = some t) :
    scenarioParams t = scenarioParams s ∧
    t.time_years = s.time_years + 1 ∧
    t.init_loan_amount = s.init_loan_amount ∧
    t.monthly_payment = s.monthly_payment ∧
    (∃ r, t.csv_rows = s.csv_rows ++ [r] ∧
      t.investment_balance
        = s.investment_balance * (1 + s.investment_return_rate)
          + r.investmentAmount) ∧
    t.investment_balances = s.investment_balances ++ [t.investment_balance] := by
  obtain ⟨u, d, hu, hd, rfl⟩ := stepYear_inv h
  obtain ⟨p1, p2, p3, p4, p5, p6, p7, p8⟩ := iterMonths_frame hu
  obtain ⟨-, -, -, -, -, -, -, -, -, -, hirr, -⟩ := scenarioParams_fields p1
  refine ⟨p1, ?_, p3, p4, ⟨yearRow u d, ?_, ?_⟩, ?_⟩
  · rw [show (yearRecord u d).time_years = u.time_years + 1 from rfl, p2]
  · rw [yearRecord_csv, p7]
  · rw [yearRecord_balance, p5, hirr]
  · rw [yearRecord_balances, p6]

/-- `stepYear_frame` lifted to `n` iterated yearly steps. -/
theorem stepYears_frame {n : ℕ} {s t : SimState}
    (h : stepYears n s = some t) :
    scenarioParams t = scenarioParams s ∧
    t.time_years = s.time_years + n ∧
    t.init_loan_amount = s.init_loan_amount ∧
    t.monthly_payment = s.monthly_payment ∧
    t.csv_rows.length = s.csv_rows.length + n ∧
    t.investment_balances.length = s.investment_balances.length + n := by
  induction n generalizing s with
  | zero =>
    obtain rfl : s = t := Option.some.inj h
    exact ⟨rfl, rfl, rfl, rfl, rfl, rfl⟩
  | succ n ih =>
    replace h : (stepYear s).bind (stepYears n) = some t := h
    cases hy : stepYear s with
    | none => rw [hy] at h; cases h
    | some u =>
      rw [hy] at h
      replace h : stepYears n u = some t := h
      obtain ⟨p1, p2, p3, p4, ⟨r, pr, -⟩, p6⟩ := stepYear_frame hy
      obtain ⟨q1, q2, q3, q4, q5, q6⟩ := ih h
      refine ⟨q1.trans p1, ?_, q3.trans p3, q4.trans p4, ?_, ?_⟩
      · rw [q2, p2]; omega
      · rw [q5, pr]; simp; omega
      · rw [q6, p6]; simp; omega

/-- Inversion for a successful `setPayment` (the first line of `run`). -/
theorem setPayment_inv {s t : SimState} (h : setPayment s = some t) :
    t = { s with monthly_payment := some (annuity s) } ∧
    (1 + s.interest_rate / 12) ^ (s.mortgage_years * 12) - 1 ≠ 0 := by
  unfold setPayment at h
  by_cases hz : (1 + s.interest_rate / 12) ^ (s.mortgage_years * 12) - 1 = 0
  · rw [if_pos hz] at h; cases h
  · rw [if_neg hz] at h
    exact ⟨(Option.some.inj h).symm, hz⟩

/-- Inversion for a successful `run`. -/
theorem run_inv {s t : SimState} (h : run s = some t) :
    setPayment s = some { s with monthly_payment := some (annuity s) } ∧
    stepYears s.sim_years { s with monthly_payment := some (annuity s) }
      = some t := by
  unfold run at h
  cases hp : setPayment s with
  | none => rw [hp] at h; cases h
  | some s1 =>
    rw [hp] at h
    obtain ⟨rfl, -⟩ := setPayment_inv hp
    exact ⟨rfl, h⟩

/-- The scenario literally passed to `MortgageSim(...)` at the bottom of
the source file (lines 220-233). -/
def demoParams : Params :=
  ⟨1200000, 400000, 30, 15, 500000, 100000, 25900,
   2 / 100, 2 / 100, 6 / 100, 3 / 100, 5 / 100⟩

/-- States reachable from a freshly constructed engine by completed runs
and restarts (the driver's usage pattern, lines 235-240, without the
parameter mutation between scenarios). -/
inductive Reachable (p : Params) : SimState → Prop
  | init : Reachable p (mkSim p)
  | run_step {s t : SimState} : Reachable p s → run s = some t → Reachable p t
  | restart_step {s : SimState} : Reachable p s → Reachable p (restart s)

/-- Runs and restarts never change the scenario parameters or the stashed
`_INIT_LOAN_AMOUNT`. -/
theorem reachable_invariant {p : Params} {s : SimState} (h : Reachable p s) :
    scenarioParams s = p ∧
    s.init_loan_amount = p.home_price - p.down_payment := by
  induction h with
  | init => exact ⟨rfl, rfl⟩
  | run_step hs hr ih =>
    obtain ⟨q1, q2⟩ := ih
    obtain ⟨-, hsy⟩ := run_inv hr
    obtain ⟨f1, -, f3, -⟩ := stepYears_frame hsy
    exact ⟨f1.trans q1, f3.trans q2⟩
  | restart_step hs ih => exact ⟨ih.1, ih.2⟩

/-- C5: for every engine state reachable by any sequence of runs and
resets, `restart` restores the loan balance to the starting principal
(home price minus down payment), zeroes the investment balance and the
clock, empties every history sequence, and leaves every scenario-parameter
field unchanged. -/
theorem C5_restart_restores (p : Params) (s : SimState) (h : Reachable p s) :
    (restart s).loan_amount = p.home_price - p.down_payment ∧
    (restart s).investment_balance = 0 ∧
    (restart s).time_years = 0 ∧
    (restart s).interest_payments = [] ∧
    (restart s).principal_payments = [] ∧
    (restart s).monthly_payments = [] ∧
    (restart s).loan_amounts = [] ∧
    (restart s).investment_balances = [] ∧
    (restart s).standard_deductions = [] ∧
    (restart s).charitable_deductions = [] ∧
    (restart s).salt_deductions = [] ∧
    (restart s).mortgage_interest_deductions = [] ∧
    (restart s).itemized_deductions = [] ∧
    (restart s).deductions = [] ∧
    (restart s).csv_rows = [] ∧
    scenarioParams (restart s) = scenarioParams s := by
  obtain ⟨-, h2⟩ := reachable_invariant h
  exact ⟨h2, rfl, rfl, rfl, rfl, rfl, rfl, rfl, rfl, rfl, rfl, rfl, rfl, rfl,
    rfl, rfl⟩

/-- C5 witness: the theorem applied to the freshly constructed demo
scenario. -/
theorem C5_restart_restores_witness :
    (restart (mkSim demoParams)).loan_amount
      = demoParams.home_price - demoParams.down_payment ∧
    (restart (mkSim demoParams)).investment_balance = 0 ∧
    (restart (mkSim demoParams)).time_years = 0 ∧
    (restart (mkSim demoParams)).interest_payments = [] ∧
    (restart (mkSim demoParams)).principal_payments = [] ∧
    (restart (mkSim demoParams)).monthly_payments = [] ∧
    (restart (mkSim demoParams)).loan_amounts = [] ∧
    (restart (mkSim demoParams)).investment_balances = [] ∧
    (restart (mkSim demoParams)).standard_deductions = [] ∧
    (restart (mkSim demoParams)).charitable_deductions = [] ∧
    (restart (mkSim demoParams)).salt_deductions = [] ∧
    (restart (mkSim demoParams)).mortgage_interest_deductions = [] ∧
    (restart (mkSim demoParams)).itemized_deductions = [] ∧
    (restart (mkSim demoParams)).deductions = [] ∧
    (restart (mkSim demoParams)).csv_rows = [] ∧
    scenarioParams (restart (mkSim demoParams))
      = scenarioParams (mkSim demoParams) :=
  C5_restart_restores demoParams (mkSim demoParams) Reachable.init

/-- C8 (amended): construction performs no validation at all.  Any
configuration — negative rates, down payment exceeding the home price,
zero horizon included — yields a normal engine state with the loan set to
home price minus down payment (possibly negative), an empty history and
no failure. -/
theorem C8_construction_never_validates (p : Params) :
    scenarioParams (mkSim p) = p ∧
    (mkSim p).loan_amount = p.home_price - p.down_payment ∧
    (mkSim p).init_loan_amount = p.home_price - p.down_payment ∧
    (mkSim p).time_years = 0 ∧
    (mkSim p).investment_balance = 0 ∧
    (mkSim p).csv_rows = [] ∧
    (mkSim p).monthly_payment = none :=
  ⟨rfl, rfl, rfl, rfl, rfl, rfl, rfl⟩

/-- An invalid configuration: down payment above the home price, negative
interest rate, zero simulation horizon. -/
def pC8 : Params := ⟨100, 200, 0, 15, 50000, 10000, 5000, 0, 0, -1/2, 0, 0⟩

/-- C8 counterexample: at this concrete invalid configuration the
constructor succeeds (it produces an ordinary state with a negative loan
amount) and even a full `run` completes without any failure — construction
does not fail fast, nor does anything fail mid-run. -/
theorem C8_counterexample :
    (mkSim pC8).home_price < (mkSim pC8).down_payment ∧
    (mkSim pC8).interest_rate < 0 ∧
    (mkSim pC8).sim_years = 0 ∧
    (mkSim pC8).loan_amount = -100 ∧
    (run (mkSim pC8)).isSome = true := by
  refine ⟨by norm_num [mkSim, pC8], by norm_num [mkSim, pC8], rfl,
    by norm_num [mkSim, pC8], ?_⟩
  norm_num [run, setPayment, mkSim, pC8, stepYears, annuity]

/-- C2 (amended): with a zero interest rate the annuity denominator
`(1+0/12)^(12T) - 1` is exactly zero, so the monthly-payment computation
at the start of `run` divides by zero and the run fails; there is no
`M = P/(12T)` special case. -/
theorem C2_zero_rate_run_fails (s : SimState) (hr : s.interest_rate = 0) :
    setPayment s = none ∧ run s = none := by
  have hz : (1 + s.interest_rate / 12) ^ (s.mortgage_years * 12) - 1 = 0 := by
    rw [hr]; norm_num
  have hp : setPayment s = none := by
    unfold setPayment; rw [if_pos hz]
  refine ⟨hp, ?_⟩
  unfold run; rw [hp]; rfl

/-- A zero-rate scenario with a positive mortgage term. -/
def pC2 : Params := ⟨1200, 0, 1, 10, 0, 0, 0, 0, 0, 0, 0, 0⟩

/-- C2 counterexample: at this concrete scenario with rate 0 and term
10 > 0 the run fails with a division by zero instead of producing the
claimed payment `P/(12T)`. -/
theorem C2_counterexample :
    (mkSim pC2).interest_rate = 0 ∧ 0 < (mkSim pC2).mortgage_years ∧
    run (mkSim pC2) = none := by
  refine ⟨rfl, by norm_num [mkSim, pC2], ?_⟩
  norm_num [run, setPayment, mkSim, pC2]

/-- C2 witness for the amended theorem, at a second zero-rate scenario. -/
def pC2w : Params := ⟨100, 0, 1, 15, 0, 0, 0, 0, 0, 0, 0, 0⟩

theorem C2_zero_rate_run_fails_witness :
    setPayment (mkSim pC2w) = none ∧ run (mkSim pC2w) = none :=
  C2_zero_rate_run_fails (mkSim pC2w) rfl

/-- C9: below the fixed exemption total `2*2425` the state tax is
negative, and the SALT deduction — the `min` of the positive
inflation-scaled cap and the state tax — equals that negative state tax;
no clamping at zero happens anywhere. -/
theorem C9_negative_salt (s : SimState) (income : ℚ) (year : ℕ)
    (hinc : income < 2425 * 2) (hc : 0 < (1 + s.inflation_rate) ^ year) :
    get_state_tax income < 0 ∧
    get_salt_deduction s income year = get_state_tax income ∧
    get_salt_deduction s income year < 0 := by
  have h1 : get_state_tax income < 0 := by
    unfold get_state_tax; nlinarith
  have h2 : get_salt_deduction s income year = get_state_tax income := by
    unfold get_salt_deduction
    exact min_eq_right (le_of_lt (lt_trans h1 (mul_pos (by norm_num) hc)))
  exact ⟨h1, h2, h2 ▸ h1⟩

/-- C9 witness: income 0 in year 0 of the demo scenario. -/
theorem C9_negative_salt_witness :
    get_state_tax 0 < 0 ∧
    get_salt_deduction (mkSim demoParams) 0 0 = get_state_tax 0 ∧
    get_salt_deduction (mkSim demoParams) 0 0 < 0 :=
  C9_negative_salt (mkSim demoParams) 0 0 (by norm_num) (by norm_num)

/-- C10: `restart` does not clear or recompute the stored monthly payment:
the previous run's value survives the reset, a monthly step taken between
the reset and the next run reuses that stale payment, and the payment is
replaced only when the next run begins, from whichever loan, term and rate
are current at that point (the annuity formula applied to the restarted
state). -/
theorem C10_restart_keeps_stale_payment (s : SimState) (m : ℚ)
    (hm : s.monthly_payment = some m) :
    (restart s).monthly_payment = some m ∧
    (0 < s.mortgage_years →
      (stepMonth (restart s)).map SimState.monthly_payments = some [m]) ∧
    (∀ t, run (restart s) = some t →
      t.monthly_payment = some (annuity (restart s))) := by
  have hm' : (restart s).monthly_payment = some m := hm
  refine ⟨hm', ?_, ?_⟩
  · intro hT
    have hlt : (restart s).time_years < (restart s).mortgage_years := hT
    unfold stepMonth
    rw [if_pos hlt, hm']
    rfl
  · intro t ht
    obtain ⟨-, hsy⟩ := run_inv ht
    obtain ⟨-, -, -, f4, -⟩ := stepYears_frame hsy
    exact f4

/-- A post-run-like state: the demo engine with a stored monthly payment. -/
def sC10 : SimState := { mkSim demoParams with monthly_payment := some 5 }

/-- C10 witness: the theorem applied to a concrete state carrying a stale
payment of 5. -/
theorem C10_restart_keeps_stale_payment_witness :
    (restart sC10).monthly_payment = some 5 ∧
    (0 < sC10.mortgage_years →
      (stepMonth (restart sC10)).map SimState.monthly_payments = some [5]) ∧
    (∀ t, run (restart sC10) = some t →
      t.monthly_payment = some (annuity (restart sC10))) :=
  C10_restart_keeps_stale_payment sC10 5 rfl

/-- The finite thresholds of a bracket list are above `prev` and
ascending, up to the first infinite (`none`) threshold — the shape of the
scaled bracket table that the walk relies on. -/
def thresholdsLB : ℚ → List (Option ℚ × ℚ) → Prop
  | _, [] => True
  | prev, (some level, _) :: rest => prev ≤ level ∧ thresholdsLB level rest
  | _, (none, _) :: _ => True

theorem walkBrackets_cons_some (x level rate prev total : ℚ)
    (rest : List (Option ℚ × ℚ)) :
    walkBrackets x ((some level, rate) :: rest) prev total
      = if x ≥ level then walkBrackets x rest level (total + (level - prev) * rate)
        else total + (x - prev) * rate := rfl

theorem walkBrackets_cons_none (x rate prev total : ℚ)
    (rest : List (Option ℚ × ℚ)) :
    walkBrackets x ((none, rate) :: rest) prev total
      = total + (x - prev) * rate := rfl

/-- The walk never returns less than the accumulator it starts from
(nonnegative rates, well-shaped thresholds, income at or above `prev`). -/
theorem walkBrackets_ge (x : ℚ) :
    ∀ (l : List (Option ℚ × ℚ)) (prev total : ℚ),
    (∀ b ∈ l, 0 ≤ b.2) → thresholdsLB prev l → prev ≤ x →
    total ≤ walkBrackets x l prev total := by
  intro l
  induction l with
  | nil => intro prev total _ _ _; exact le_refl _
  | cons b rest ih =>
    intro prev total hr hlb hpx
    match b with
    | (some level, rate) =>
      have hrate : 0 ≤ rate := hr _ (List.mem_cons_self _ _)
      obtain ⟨h1, h2⟩ := hlb
      rw [walkBrackets_cons_some]
      by_cases hxl : x ≥ level
      · rw [if_pos hxl]
        have step : total ≤ total + (level - prev) * rate := by nlinarith
        exact le_trans step
          (ih level _ (fun c hc => hr c (List.mem_cons_of_mem _ hc)) h2 hxl)
      · rw [if_neg hxl]; nlinarith
    | (none, rate) =>
      have hrate : 0 ≤ rate := hr _ (List.mem_cons_self _ _)
      rw [walkBrackets_cons_none]; nlinarith

/-- The walk never exceeds the accumulator plus `R` times the distance
from `prev` (all rates at most `R`). -/
theorem walkBrackets_le (R x : ℚ) (hR : 0 ≤ R) :
    ∀ (l : List (Option ℚ × ℚ)) (prev total : ℚ),
    (∀ b ∈ l, b.2 ≤ R) → thresholdsLB prev l → prev ≤ x →
    walkBrackets x l prev total ≤ total + R * (x - prev) := by
  intro l
  induction l with
  | nil =>
    intro prev total _ _ hpx
    rw [show walkBrackets x [] prev total = total from rfl]
    nlinarith
  | cons b rest ih =>
    intro prev total hr hlb hpx
    match b with
    | (some level, rate) =>
      have hrate : rate ≤ R := hr _ (List.mem_cons_self _ _)
      obtain ⟨h1, h2⟩ := hlb
      rw [walkBrackets_cons_some]
      by_cases hxl : x ≥ level
      · rw [if_pos hxl]
        have tail := ih level (total + (level - prev) * rate)
          (fun c hc => hr c (List.mem_cons_of_mem _ hc)) h2 hxl
        nlinarith
      · rw [if_neg hxl]; nlinarith
    | (none, rate) =>
      have hrate : rate ≤ R := hr _ (List.mem_cons_self _ _)
      rw [walkBrackets_cons_none]; nlinarith

/-- The walk is monotone in the income argument. -/
theorem walkBrackets_mono (x y : ℚ) (hxy : x ≤ y) :
    ∀ (l : List (Option ℚ × ℚ)) (prev total : ℚ),
    (∀ b ∈ l, 0 ≤ b.2) → thresholdsLB prev l →
    walkBrackets x l prev total ≤ walkBrackets y l prev total := by
  intro l
  induction l with
  | nil => intro prev total _ _; exact le_refl _
  | cons b rest ih =>
    intro prev total hr hlb
    match b with
    | (some level, rate) =>
      have hrate : 0 ≤ rate := hr _ (List.mem_cons_self _ _)
      obtain ⟨h1, h2⟩ := hlb
      rw [walkBrackets_cons_some, walkBrackets_cons_some]
      by_cases hyl : y ≥ level
      · rw [if_pos hyl]
        by_cases hxl : x ≥ level
        · rw [if_pos hxl]
          exact ih level _ (fun c hc => hr c (List.mem_cons_of_mem _ hc)) h2
        · rw [if_neg hxl]
          have tail := walkBrackets_ge y rest level
            (total + (level - prev) * rate)
            (fun c hc => hr c (List.mem_cons_of_mem _ hc)) h2 hyl
          nlinarith
      · rw [if_neg hyl, if_neg (by push_neg at hyl ⊢; linarith)]
        nlinarith
    | (none, rate) =>
      have hrate : 0 ≤ rate := hr _ (List.mem_cons_self _ _)
      rw [walkBrackets_cons_none, walkBrackets_cons_none]
      nlinarith

/-- The walk is `R`-Lipschitz from above in the income argument when all
rates lie in `[0, R]`. -/
theorem walkBrackets_lipschitz (R x y : ℚ) (hR : 0 ≤ R) (hxy : x ≤ y) :
    ∀ (l : List (Option ℚ × ℚ)) (prev total : ℚ),
    (∀ b ∈ l, 0 ≤ b.2 ∧ b.2 ≤ R) → thresholdsLB prev l →
    walkBrackets y l prev total - walkBrackets x l prev total ≤ R * (y - x) := by
  intro l
  induction l with
  | nil =>
    intro prev total hr _
    rw [show walkBrackets y [] prev total = total from rfl,
      show walkBrackets x [] prev total = total from rfl]
    nlinarith
  | cons b rest ih =>
    intro prev total hr hlb
    match b with
    | (some level, rate) =>
      obtain ⟨hr0, hrR⟩ := hr _ (List.mem_cons_self _ _)
      obtain ⟨h1, h2⟩ := hlb
      rw [walkBrackets_cons_some, walkBrackets_cons_some]
      by_cases hyl : y ≥ level
      · rw [if_pos hyl]
        by_cases hxl : x ≥ level
        · rw [if_pos hxl]
          exact ih level _ (fun c hc => hr c (List.mem_cons_of_mem _ hc)) h2
        · rw [if_neg hxl]
          have tail := walkBrackets_le R y hR rest level
            (total + (level - prev) * rate)
            (fun c hc => (hr c (List.mem_cons_of_mem _ hc)).2) h2 hyl
          push_neg at hxl
          nlinarith
      · rw [if_neg hyl, if_neg (by push_neg at hyl ⊢; linarith)]
        nlinarith
    | (none, rate) =>
      obtain ⟨hr0, hrR⟩ := hr _ (List.mem_cons_self _ _)
      rw [walkBrackets_cons_none, walkBrackets_cons_none]
      nlinarith

/-- Every rate of the scaled bracket table lies in `[0, 0.37]`, the top
bracket's rate. -/
theorem rates_bounded (s : SimState) (year : ℕ) :
    ∀ b ∈ get_current_tax_brackets s year, 0 ≤ b.2 ∧ b.2 ≤ 37 / 100 := by
  intro b hb
  simp only [get_current_tax_brackets, initial_tax_brackets, List.map,
    List.mem_cons, List.not_mem_nil, or_false] at hb
  rcases hb with rfl | rfl | rfl | rfl | rfl | rfl | rfl <;> norm_num

/-- The scaled bracket table has well-shaped thresholds as soon as the
scale factor is nonnegative. -/
theorem thresholds_shaped (s : SimState) (year : ℕ)
    (hc : 0 ≤ (1 + s.inflation_rate) ^ year) :
    thresholdsLB 0 (get_current_tax_brackets s year) := by
  simp only [get_current_tax_brackets, initial_tax_brackets, List.map_cons,
    List.map_nil, Option.map_some', Option.map_none']
  exact ⟨by nlinarith, by nlinarith, by nlinarith, by nlinarith, by nlinarith,
    by nlinarith, trivial⟩

/-- C6: for a fixed year the federal tax is non-decreasing in income, and
its increase is bounded by the top bracket's rate (0.37) times the income
difference. -/
theorem C6_federal_tax_monotone (s : SimState) (year : ℕ) (x y : ℚ)
    (hxy : x ≤ y) (hinfl : 0 ≤ 1 + s.inflation_rate) :
    get_federal_tax s x year ≤ get_federal_tax s y year ∧
    get_federal_tax s y year - get_federal_tax s x year
      ≤ 37 / 100 * (y - x) := by
  have hc : 0 ≤ (1 + s.inflation_rate) ^ year := pow_nonneg hinfl year
  refine ⟨?_, ?_⟩
  · exact walkBrackets_mono x y hxy (get_current_tax_brackets s year) 0 0
      (fun b hb => (rates_bounded s year b hb).1) (thresholds_shaped s year hc)
  · exact walkBrackets_lipschitz (37 / 100) x y (by norm_num) hxy
      (get_current_tax_brackets s year) 0 0 (rates_bounded s year)
      (thresholds_shaped s year hc)

/-- C6 witness: incomes 0 and 50000 in year 0 of the demo scenario. -/
theorem C6_federal_tax_monotone_witness :
    get_federal_tax (mkSim demoParams) 0 0
      ≤ get_federal_tax (mkSim demoParams) 50000 0 ∧
    get_federal_tax (mkSim demoParams) 50000 0
        - get_federal_tax (mkSim demoParams) 0 0
      ≤ 37 / 100 * (50000 - 0) :=
  C6_federal_tax_monotone (mkSim demoParams) 0 0 50000 (by norm_num)
    (by norm_num [mkSim, demoParams])

/-- C1 (amended): taxable income is NOT clamped at zero.  For any negative
taxable income `t` the bracket walk stops inside the first bracket and
returns `t * 0.1`, which is negative — not zero. -/
theorem C1_no_clamp_negative_tax (s : SimState) (t : ℚ) (year : ℕ)
    (ht : t < 0) (hinfl : 0 ≤ 1 + s.inflation_rate) :
    get_federal_tax s t year = t * (1 / 10) := by
  have hc : 0 ≤ (1 + s.inflation_rate) ^ year := pow_nonneg hinfl year
  have hlt : ¬ t ≥ 22000 * (1 + s.inflation_rate) ^ year := by nlinarith
  unfold get_federal_tax
  simp only [get_current_tax_brackets, initial_tax_brackets, List.map_cons,
    List.map_nil, Option.map_some', Option.map_none']
  rw [walkBrackets_cons_some, if_neg hlt]
  ring

/-- C1 witness for the amended theorem: taxable income -12000 in year 3 of
the demo scenario yields federal tax -1200. -/
theorem C1_no_clamp_negative_tax_witness :
    get_federal_tax (mkSim demoParams) (-12000) 3 = -12000 * (1 / 10) :=
  C1_no_clamp_negative_tax (mkSim demoParams) (-12000) 3 (by norm_num)
    (by norm_num [mkSim, demoParams])

/-- A scenario whose standard deduction (12000000) far exceeds its income
(0), so the applied deduction exceeds income in year 0.  The rate 12
(1200% yearly, i.e. 100% monthly) keeps every intermediate rational
small. -/
def pC1 : Params := ⟨16777215, 0, 1, 2, 0, 0, 12000000, 0, 0, 12, 0, 0⟩

/-- C1 counterexample: in this concrete run the applied deduction exceeds
the income, and the federal tax recorded for the year is negative — not
zero as the claim states; no clamping of taxable income happens. -/
theorem C1_counterexample :
    ((run (mkSim pC1)).map
      (fun s => (s.csv_rows.headD zeroRow).federalTax)).getD 0 < 0 ∧
    ((run (mkSim pC1)).map
      (fun s => (s.csv_rows.headD zeroRow).income
        - (s.csv_rows.headD zeroRow).preferredDeduction)).getD 0 < 0 := by
  constructor <;>
  norm_num [run, setPayment, annuity, mkSim, pC1, stepYears, stepYear,
    iterMonths, stepMonth, lastN, get_income, get_standard_deduction,
    get_salt_deduction, get_state_tax, get_mortgage_interest_deduction,
    get_federal_tax, get_current_tax_brackets, initial_tax_brackets,
    walkBrackets, get_living_expenses, zeroRow]

/-- After the mortgage term `step_month` takes the all-zero branch and
leaves the loan balance, the clock and the term unchanged. -/
theorem stepMonth_postTerm {s : SimState} (h : s.mortgage_years ≤ s.time_years) :
    stepMonth s = some { s with
      interest_payments := s.interest_payments ++ [0]
      principal_payments := s.principal_payments ++ [0]
      monthly_payments := s.monthly_payments ++ [0]
      loan_amounts := s.loan_amounts ++ [s.loan_amount] } := by
  unfold stepMonth
  rw [if_neg (by omega)]

/-- Iterated post-term monthly steps always succeed and never move the
loan balance. -/
theorem iterMonths_postTerm (n : ℕ) :
    ∀ s : SimState, s.mortgage_years ≤ s.time_years →
    ∃ u, iterMonths n s = some u ∧ u.loan_amount = s.loan_amount ∧
      u.time_years = s.time_years ∧ u.mortgage_years = s.mortgage_years := by
  induction n with
  | zero => intro s h; exact ⟨s, rfl, rfl, rfl, rfl⟩
  | succ n ih =>
    intro s h
    obtain ⟨u, hu, e1, e2, e3⟩ := ih { s with
      interest_payments := s.interest_payments ++ [0]
      principal_payments := s.principal_payments ++ [0]
      monthly_payments := s.monthly_payments ++ [0]
      loan_amounts := s.loan_amounts ++ [s.loan_amount] } h
    refine ⟨u, ?_, e1, e2, e3⟩
    show (stepMonth s).bind (iterMonths n) = some u
    rw [stepMonth_postTerm h]
    exact hu

/-- C3 (amended): there is no zero-balance guard.  The mortgage-interest
deduction is the unguarded ratio `min(750e3, b)/b * interest`, which
divides by zero whenever the balance is zero; in particular a yearly step
taken after the mortgage term with a zero balance fails with a
`ZeroDivisionError` instead of recording a deduction of 0. -/
theorem C3_zero_balance_not_guarded :
    (∀ i : ℚ, get_mortgage_interest_deduction 0 i = none) ∧
    (∀ s : SimState, s.mortgage_years ≤ s.time_years → s.loan_amount = 0 →
      stepYear s = none) := by
  constructor
  · intro i
    unfold get_mortgage_interest_deduction
    rw [if_pos rfl]
  · intro s hterm hb
    obtain ⟨u, hu, e1, -, -⟩ := iterMonths_postTerm 12 s hterm
    refine stepYear_none_of_deduction hu ?_
    unfold get_mortgage_interest_deduction
    rw [if_pos (e1.trans hb)]

/-- A fully paid-for home: no loan at all, term 0. -/
def pC3w : Params := ⟨500, 500, 1, 0, 0, 0, 0, 0, 0, 0, 0, 0⟩

/-- C3 witness: the amended theorem applied at balance 0 and at the year-0
step of a zero-loan zero-term scenario. -/
theorem C3_zero_balance_not_guarded_witness :
    get_mortgage_interest_deduction 0 500 = none ∧
    stepYear (mkSim pC3w) = none :=
  ⟨C3_zero_balance_not_guarded.1 500,
   C3_zero_balance_not_guarded.2 (mkSim pC3w) (by norm_num [mkSim, pC3w])
     (by norm_num [mkSim, pC3w])⟩

/-- A zero-loan scenario whose mortgage term is still running. -/
def pC3 : Params := ⟨100, 100, 1, 2, 0, 0, 0, 0, 0, 12, 0, 0⟩

/-- C3 counterexample: in this concrete run the balance is zero when the
deduction is computed, and the run faults (the division by zero IS
reached) instead of using a deduction of 0. -/
theorem C3_counterexample :
    (mkSim pC3).loan_amount = 0 ∧ run (mkSim pC3) = none := by
  constructor
  · norm_num [mkSim, pC3]
  · norm_num [run, setPayment, annuity, mkSim, pC3, stepYears, stepYear,
      iterMonths, stepMonth, lastN, get_income, get_standard_deduction,
      get_salt_deduction, get_state_tax, get_mortgage_interest_deduction,
      get_federal_tax, get_current_tax_brackets, initial_tax_brackets,
      walkBrackets, get_living_expenses]

/-- C7: a completed run advances the clock by exactly `sim_years`, appends
exactly one csv row and one balance entry per simulated year (no early
termination path exists), and each yearly step updates the investment
balance by the exact compounding formula with the possibly negative
surplus added — there is no floor-at-zero clamp. -/
theorem C7_run_full_horizon :
    (∀ s t : SimState, run s = some t →
      t.time_years = s.time_years + s.sim_years ∧
      t.csv_rows.length = s.csv_rows.length + s.sim_years ∧
      t.investment_balances.length
        = s.investment_balances.length + s.sim_years) ∧
    (∀ s t : SimState, stepYear s = some t → ∃ r : CsvRow,
      t.csv_rows = s.csv_rows ++ [r] ∧
      t.investment_balance
        = s.investment_balance * (1 + s.investment_return_rate)
          + r.investmentAmount) := by
  constructor
  · intro s t h
    obtain ⟨-, hsy⟩ := run_inv h
    obtain ⟨-, f2, -, -, f5, f6⟩ := stepYears_frame hsy
    exact ⟨f2, f5, f6⟩
  · intro s t h
    obtain ⟨-, -, -, -, f5, -⟩ := stepYear_frame h
    exact f5

/-- A scenario in which living on no income while paying the mortgage
drives the investment balance negative. -/
def pC7 : Params := ⟨16777215, 0, 1, 2, 0, 0, 0, 0, 0, 12, 0, 0⟩

/-- The state a run of `pC7` ends in. -/
def sC7 : SimState := (run (mkSim pC7)).getD (mkSim pC7)

theorem runC7_eq : run (mkSim pC7) = some sC7 := by
  norm_num [sC7, run, setPayment, annuity, mkSim, pC7, stepYears, stepYear,
    iterMonths, stepMonth, lastN, get_income, get_standard_deduction,
    get_salt_deduction, get_state_tax, get_mortgage_interest_deduction,
    get_federal_tax, get_current_tax_brackets, initial_tax_brackets,
    walkBrackets, get_living_expenses]

/-- C7 witness: the run of `pC7` completes its full one-year horizon with
one csv row and one balance entry, even though its investment balance ends
strictly negative. -/
theorem C7_run_full_horizon_witness :
    sC7.time_years = (mkSim pC7).time_years + (mkSim pC7).sim_years ∧
    sC7.csv_rows.length = (mkSim pC7).csv_rows.length + (mkSim pC7).sim_years ∧
    sC7.investment_balances.length
      = (mkSim pC7).investment_balances.length + (mkSim pC7).sim_years ∧
    sC7.investment_balance < 0 :=
  ⟨(C7_run_full_horizon.1 _ _ runC7_eq).1,
   (C7_run_full_horizon.1 _ _ runC7_eq).2.1,
   (C7_run_full_horizon.1 _ _ runC7_eq).2.2,
   by norm_num [sC7, run, setPayment, annuity, mkSim, pC7, stepYears, stepYear,
     iterMonths, stepMonth, lastN, get_income, get_standard_deduction,
     get_salt_deduction, get_state_tax, get_mortgage_interest_deduction,
     get_federal_tax, get_current_tax_brackets, initial_tax_brackets,
     walkBrackets, get_living_expenses]⟩

/-- Inside the mortgage term `step_month` splits the stored payment into
interest `r/12 * balance` and principal, and reduces the balance by the
principal. -/
theorem stepMonth_active {s : SimState} {m : ℚ} (hm : s.monthly_payment = some m)
    (ht : s.time_years < s.mortgage_years) :
    stepMonth s = some { s with
      loan_amount := s.loan_amount - (m - s.interest_rate / 12 * s.loan_amount)
      interest_payments :=
        s.interest_payments ++ [s.interest_rate / 12 * s.loan_amount]
      principal_payments :=
        s.principal_payments ++ [m - s.interest_rate / 12 * s.loan_amount]
      monthly_payments := s.monthly_payments ++ [m]
      loan_amounts := s.loan_amounts
        ++ [s.loan_amount - (m - s.interest_rate / 12 * s.loan_amount)] } := by
  unfold stepMonth
  rw [if_pos ht, hm]

/-- Closed form of `n` in-term monthly steps: with `q = 1 + r/12`, the
balance after `n` months is `b*q^n - m*(1 + q + ... + q^(n-1))`. -/
theorem iterMonths_active :
    ∀ (n : ℕ) (s : SimState) (m : ℚ), s.monthly_payment = some m →
    s.time_years < s.mortgage_years →
    ∃ t, iterMonths n s = some t ∧
      t.loan_amount = s.loan_amount * (1 + s.interest_rate / 12) ^ n
        - m * gsum (1 + s.interest_rate / 12) n ∧
      t.time_years = s.time_years ∧
      t.mortgage_years = s.mortgage_years ∧
      t.interest_rate = s.interest_rate ∧
      t.monthly_payment = some m := by
  intro n
  induction n with
  | zero =>
    intro s m hm ht
    exact ⟨s, rfl, by simp [gsum], rfl, rfl, rfl, hm⟩
  | succ n ih =>
    intro s m hm ht
    obtain ⟨t, h1, h2, h3, h4, h5, h6⟩ := ih { s with
      loan_amount := s.loan_amount - (m - s.interest_rate / 12 * s.loan_amount)
      interest_payments :=
        s.interest_payments ++ [s.interest_rate / 12 * s.loan_amount]
      principal_payments :=
        s.principal_payments ++ [m - s.interest_rate / 12 * s.loan_amount]
      monthly_payments := s.monthly_payments ++ [m]
      loan_amounts := s.loan_amounts
        ++ [s.loan_amount - (m - s.interest_rate / 12 * s.loan_amount)] }
      m hm ht
    refine ⟨t, ?_, ?_, h3, h4, h5, h6⟩
    · show (stepMonth s).bind (iterMonths n) = some t
      rw [stepMonth_active hm ht]
      exact h1
    · have h2' : t.loan_amount
          = (s.loan_amount - (m - s.interest_rate / 12 * s.loan_amount))
              * (1 + s.interest_rate / 12) ^ n
            - m * gsum (1 + s.interest_rate / 12) n := h2
      rw [h2', gsum_succ]
      ring

/-- Closed form of `k` whole in-term years of the amortization loop. -/
theorem amortYears_active :
    ∀ (k : ℕ) (s : SimState) (m : ℚ), s.monthly_payment = some m →
    s.time_years + k ≤ s.mortgage_years →
    ∃ t, amortYears k s = some t ∧
      t.loan_amount = s.loan_amount * (1 + s.interest_rate / 12) ^ (12 * k)
        - m * gsum (1 + s.interest_rate / 12) (12 * k) ∧
      t.principal_payments.sum + t.loan_amount
        = s.principal_payments.sum + s.loan_amount ∧
      t.time_years = s.time_years + k := by
  intro k
  induction k with
  | zero =>
    intro s m hm hk
    exact ⟨s, rfl, by simp [gsum], rfl, rfl⟩
  | succ k ih =>
    intro s m hm hk
    have ht : s.time_years < s.mortgage_years := by omega
    obtain ⟨u, hu, e2, e3, e4, e5, e6⟩ := iterMonths_active 12 s m hm ht
    obtain ⟨-, -, -, -, -, -, -, f8⟩ := iterMonths_frame hu
    have hm2 : (tickYear u).monthly_payment = some m := e6
    have hk2 : (tickYear u).time_years + k ≤ (tickYear u).mortgage_years := by
      show u.time_years + 1 + k ≤ u.mortgage_years
      rw [e3, e4]
      omega
    obtain ⟨t, g1, g2, g3, g4⟩ := ih (tickYear u) m hm2 hk2
    refine ⟨t, ?_, ?_, ?_, ?_⟩
    · show (iterMonths 12 s).bind (fun v => amortYears k (tickYear v)) = some t
      rw [hu]
      exact g1
    · have g2' : t.loan_amount
          = u.loan_amount * (1 + u.interest_rate / 12) ^ (12 * k)
            - m * gsum (1 + u.interest_rate / 12) (12 * k) := g2
      rw [g2', e5, e2]
      have h12 : 12 * (k + 1) = 12 + 12 * k := by ring
      rw [h12, gsum_add, pow_add]
      ring
    · have g3' : t.principal_payments.sum + t.loan_amount
          = u.principal_payments.sum + u.loan_amount := g3
      exact g3'.trans f8
    · have g4' : t.time_years = u.time_years + 1 + k := g4
      rw [g4', e3]
      omega

/-- C4: for any positive principal, positive rate and positive term, the
monthly payment computed by `run` exists (the annuity denominator is
nonzero), and after the `12T` in-term monthly steps of the first `T`
years the scheduled principal payments sum exactly to the principal and
the loan balance is exactly 0 (hence at most 1 unit of currency) — the
rational-arithmetic sharpening of "within floating tolerance". -/
theorem C4_amortization (p : Params)
    (_hP : 0 < p.home_price - p.down_payment)
    (hr : 0 < p.interest_rate) (hT : 0 < p.mortgage_years) :
    ∃ s1 t, setPayment (mkSim p) = some s1 ∧
      amortYears p.mortgage_years s1 = some t ∧
      t.principal_payments.sum = p.home_price - p.down_payment ∧
      t.loan_amount = 0 ∧ t.loan_amount ≤ 1 := by
  have hq1 : 1 < 1 + p.interest_rate / 12 := by nlinarith
  have hqN : 1 < (1 + p.interest_rate / 12) ^ (p.mortgage_years * 12) :=
    one_lt_pow₀ hq1 (by positivity)
  have hden : (1 + p.interest_rate / 12) ^ (p.mortgage_years * 12) - 1 ≠ 0 :=
    ne_of_gt (by linarith)
  have hden' : ¬ ((1 + (mkSim p).interest_rate / 12)
      ^ ((mkSim p).mortgage_years * 12) - 1 = 0) := hden
  have hsp : setPayment (mkSim p)
      = some { mkSim p with monthly_payment := some (annuity (mkSim p)) } := by
    unfold setPayment
    rw [if_neg hden']
  obtain ⟨t, h1, h2, h3, h4⟩ := amortYears_active p.mortgage_years
    { mkSim p with monthly_payment := some (annuity (mkSim p)) }
    (annuity (mkSim p)) rfl
    (show 0 + p.mortgage_years ≤ p.mortgage_years by omega)
  have h2' : t.loan_amount
      = (p.home_price - p.down_payment)
          * (1 + p.interest_rate / 12) ^ (12 * p.mortgage_years)
        - annuity (mkSim p)
          * gsum (1 + p.interest_rate / 12) (12 * p.mortgage_years) := h2
  have h3' : t.principal_payments.sum + t.loan_amount
      = 0 + (p.home_price - p.down_payment) := h3
  have hgs : p.interest_rate / 12
        * gsum (1 + p.interest_rate / 12) (12 * p.mortgage_years)
      = (1 + p.interest_rate / 12) ^ (12 * p.mortgage_years) - 1 := by
    have := gsum_mul_sub_one (1 + p.interest_rate / 12) (12 * p.mortgage_years)
    rw [show 1 + p.interest_rate / 12 - 1 = p.interest_rate / 12 by ring] at this
    exact this
  have hMv : annuity (mkSim p)
      = (p.home_price - p.down_payment) * (p.interest_rate / 12
          * (1 + p.interest_rate / 12) ^ (p.mortgage_years * 12))
        / ((1 + p.interest_rate / 12) ^ (p.mortgage_years * 12) - 1) := rfl
  have hcomm : p.mortgage_years * 12 = 12 * p.mortgage_years := by ring
  rw [hcomm] at hMv hden
  have hloan : t.loan_amount = 0 := by
    have hMG : annuity (mkSim p)
          * gsum (1 + p.interest_rate / 12) (12 * p.mortgage_years)
        = (p.home_price - p.down_payment)
          * (1 + p.interest_rate / 12) ^ (12 * p.mortgage_years) := by
      rw [hMv, div_mul_eq_mul_div,
        show (p.home_price - p.down_payment) * (p.interest_rate / 12
            * (1 + p.interest_rate / 12) ^ (12 * p.mortgage_years))
            * gsum (1 + p.interest_rate / 12) (12 * p.mortgage_years)
          = ((p.home_price - p.down_payment)
              * (1 + p.interest_rate / 12) ^ (12 * p.mortgage_years))
            * (p.interest_rate / 12
              * gsum (1 + p.interest_rate / 12) (12 * p.mortgage_years))
          by ring,
        hgs]
      exact mul_div_cancel_right₀ _ hden
    rw [h2', hMG]
    ring
  refine ⟨_, t, hsp, h1, ?_, hloan, by rw [hloan]; norm_num⟩
  rw [hloan] at h3'
  linarith

/-- C4 witness: the theorem applied to the demo scenario (principal
800000, rate 6%, term 15 years). -/
theorem C4_amortization_witness :
    ∃ s1 t, setPayment (mkSim demoParams) = some s1 ∧
      amortYears demoParams.mortgage_years s1 = some t ∧
      t.principal_payments.sum
        = demoParams.home_price - demoParams.down_payment ∧
      t.loan_amount = 0 ∧ t.loan_amount ≤ 1 :=
  C4_amortization demoParams (by norm_num [demoParams])
    (by norm_num [demoParams]) (by norm_num [demoParams])

end MortgageSim
